import Mathlib

/-
Shallow embedding of src/tftp/server.py.

Bytes are modeled as lists of Nat (each element a byte value). Python
functions that can raise are modeled with Except over the exception kind
that the Python run time would raise at that point. Line numbers in the
comments refer to src/tftp/server.py.
-/

namespace Tftp

/-- Exception kinds that the functions of server.py can raise. The first
six mirror the module exception classes (storage.EmptyPathException is
declared in the missing tftp/storage.py but raised at line 125 here);
nameError and attributeError model built-in Python exceptions raised by
slips in the source itself. -/
inductive PyErr where
  | unknownOpcode
  | unknownErrorCode
  | illegalOperation
  | unknownMode
  | malformedPacket
  | emptyPath
  | nameError
  | attributeError
  deriving DecidableEq

/-- int.from_bytes over a big-endian byte list. -/
def intFromBytes (bs : List Nat) : Nat :=
  bs.foldl (fun acc b => acc * 256 + b) 0

/-- n.to_bytes(2, big) for n below 65536. -/
def toBytes2 (n : Nat) : List Nat :=
  [n / 256 % 256, n % 256]

/-- The integer keys of the Opcodes dict (lines 24-34). -/
def Opcodes : List Nat := [1, 2, 3, 4, 5]

/-- The integer keys of the Errors dict (lines 36-52). -/
def errorCodes : List Nat := [0, 1, 2, 3, 4, 5, 6, 7]

/-- The key set of the Modes dict (lines 54-57), as ASCII byte lists:
OCTET, NETASCII, MAIL. -/
def ModesKeys : List (List Nat) :=
  [[79, 67, 84, 69, 84], [78, 69, 84, 65, 83, 67, 73, 73], [77, 65, 73, 76]]

/-- str.upper restricted to ASCII, applied byte wise. Every mode string
exercised by the claims is plain ASCII, where Python str.upper agrees with
this map. -/
def asciiUpper (bs : List Nat) : List Nat :=
  bs.map (fun b => if 97 ≤ b ∧ b ≤ 122 then b - 32 else b)

/-- unpackOpcode (lines 59-67): reads packet[0:2] big-endian and requires
membership in the Opcodes dict, else UnknownOpcodeException. A packet
shorter than 2 bytes simply yields the integer of the available bytes. -/
def unpackOpcode (packet : List Nat) : Except PyErr Nat :=
  let c := intFromBytes (packet.take 2)
  if c ∈ Opcodes then Except.ok c else Except.error PyErr.unknownOpcode

/-- packERROR (lines 69-82): opcode 5, 2-byte code, message bytes, one
trailing NUL. The message is modeled as its ASCII byte list. -/
def packERROR (code : Nat) (msg : List Nat) : Except PyErr (List Nat) :=
  if code ∈ errorCodes then
    Except.ok ([0, 5] ++ toBytes2 code ++ msg ++ [0])
  else Except.error PyErr.unknownErrorCode

/-- packDATA (lines 84-90): line 87 calls b.extebd, a method that the
bytearray type does not have, so every call raises AttributeError before
any byte is produced. -/
def packDATA (data : List Nat) (blockNum : Nat) : Except PyErr (List Nat) :=
  Except.error PyErr.attributeError

/-- unpackDATA (lines 92-102): opcode must be DATA (3), then block number
from packet[2:4] and the rest verbatim as payload. -/
def unpackDATA (packet : List Nat) : Except PyErr (Nat × Nat × List Nat) :=
  match unpackOpcode packet with
  | Except.error e => Except.error e
  | Except.ok opcode =>
    if opcode = 3 then
      Except.ok (opcode, intFromBytes ((packet.drop 2).take 2), packet.drop 4)
    else Except.error PyErr.illegalOperation

/-- bytes.find(b, s): smallest index at or after s holding b, else -1. -/
def findFrom (packet : List Nat) (b : Nat) (s : Nat) : Int :=
  match (packet.drop s).findIdx? (fun x => x = b) with
  | some i => ((s + i : Nat) : Int)
  | none => -1

/-- unpackRWRQ (lines 104-130). The rejection branch for opcodes other
than RRQ/WRQ formats its message with Opcodes[c] where the name c is not
defined (line 110), so Python raises NameError while building the
exception argument, before the raise itself. Field bytes are kept as byte
lists (the utf-8 decode of lines 116 and 122 is modeled as the identity,
which agrees with it on the ASCII inputs the claims use). -/
def unpackRWRQ (packet : List Nat) : Except PyErr (Nat × List Nat × List Nat) :=
  match unpackOpcode packet with
  | Except.error e => Except.error e
  | Except.ok opcode =>
    if opcode = 1 ∨ opcode = 2 then
      let e1 := findFrom packet 0 2
      if e1 < (2 : Int) then Except.error PyErr.malformedPacket
      else
        let filename := (packet.drop 2).take (e1.toNat - 2)
        let s2 := e1.toNat + 1
        let e2 := findFrom packet 0 s2
        if e2 < (s2 : Int) then Except.error PyErr.malformedPacket
        else
          let mode := (packet.drop s2).take (e2.toNat - s2)
          if filename = [] then Except.error PyErr.emptyPath
          else if asciiUpper mode ∈ ModesKeys then
            Except.ok (opcode, filename, asciiUpper mode)
          else Except.error PyErr.unknownMode
    else Except.error PyErr.nameError

/-- unpackACK (lines 132-141): opcode must be ACK (4), then the block
number from packet[2:4]. Line 140 omits the byteorder argument of
int.from_bytes; it is modeled as big-endian, the Python 3.11 default. -/
def unpackACK (packet : List Nat) : Except PyErr (Nat × Nat) :=
  match unpackOpcode packet with
  | Except.error e => Except.error e
  | Except.ok opcode =>
    if opcode = 4 then
      Except.ok (opcode, intFromBytes ((packet.drop 2).take 2))
    else Except.error PyErr.illegalOperation

/-- packACK (lines 143-148): line 146 reads Opcode[ACK], but no name
Opcode exists (the dict is called Opcodes), so every call raises
NameError. -/
def packACK (blockNum : Nat) : Except PyErr (List Nat) :=
  Except.error PyErr.nameError

/-- Dispatcher outcome for one initial request datagram (Handler.handle,
lines 270-302): either one error datagram with the given code is sent to
the originating address and no session is created, or a read/write
session is entered, or an uncaught exception escapes the handler. The
message payload of the error datagram (str of the exception) is elided;
the claims concern the error code and the absence of a session. -/
inductive HandleOut where
  | sentError (code : Nat)
  | rrq (filename mode : List Nat)
  | wrq (filename mode : List Nat)
  | crashed (e : PyErr)
  deriving DecidableEq

/-- Handler.handle (lines 271-302): decode the request via unpackRWRQ and
map each caught exception class to an error code: UnknownModeException to
ACCESS_VIOLATION (2, line 279), storage.EmptyPathException to
FILE_NOT_FOUND (1, line 286), IllegalOperationException and
UnknownOpcodeException to ILLEGAL_OPERATION (4, line 293). Any other
exception (NameError from the unpackRWRQ rejection branch,
MalformedPacketException) is not caught and escapes the handler. -/
def handle (packet : List Nat) : HandleOut :=
  match unpackRWRQ packet with
  | Except.ok (op, fn, md) => if op = 1 then HandleOut.rrq fn md else HandleOut.wrq fn md
  | Except.error PyErr.unknownMode => HandleOut.sentError 2
  | Except.error PyErr.emptyPath => HandleOut.sentError 1
  | Except.error PyErr.illegalOperation => HandleOut.sentError 4
  | Except.error PyErr.unknownOpcode => HandleOut.sentError 4
  | Except.error e => HandleOut.crashed e

/-- Python list slicing file[s:e] as used in handleRRQ: a negative bound
counts from the end (the source only ever uses e = -1 there). -/
def pySlice (l : List Nat) (s e : Int) : List Nat :=
  let n : Int := l.length
  let e2 := if e < 0 then n + e else e
  let s2 := if s < 0 then n + s else s
  (l.take e2.toNat).drop s2.toNat

/-- The mutable locals of the handleRRQ loop (lines 178-197) at its one
blocking point, the socket.recv call of line 228: file is the byte
sequence returned by the storage collaborator, data the most recently
built block payload, s and e the slice bounds (e becomes -1 on the final
block). The sendDATA/readACK flags are encoded by the control flow: a
state of this type is always waiting at recv, so readACK holds and
sendDATA does not. -/
structure RRQState where
  file : List Nat
  dataBlock : Nat
  ackBlock : Nat
  s : Int
  e : Int
  data : List Nat
  deriving DecidableEq

/-- One datagram handed to the transport by the session: a DATA block
(the blockNum and payload pair the loop passes into sendData at line 209)
or an ERROR datagram with the given code (lines 243-249). -/
inductive Send where
  | data (blockNum : Nat) (payload : List Nat)
  | err (code : Nat)
  deriving DecidableEq

/-- Where the session stands after handling one event: blocked again at
recv, returned through the completion check of line 259, returned through
the error path of lines 243-249, or killed by an uncaught exception. -/
inductive Outcome where
  | waiting (st : RRQState)
  | completed
  | aborted
  | crashed (e : PyErr)
  deriving DecidableEq

/-- The datagrams sent while handling one event, with the resulting
position of the session. -/
structure StepOut where
  sends : List Send
  next : Outcome
  deriving DecidableEq

/-- One occurrence at the blocking recv of line 228: a datagram arrives,
or the socket timeout fires. The sender address is carried by the event
even though socket.recv (as opposed to recvfrom) discards it: the loop
never learns who sent the datagram. -/
inductive Event where
  | recv (sender : Nat) (packet : List Nat)
  | timeout
  deriving DecidableEq

/-- Lines 191-197 followed by the send of lines 204-211: increment
dataBlock, advance both slice bounds by 512, clip e to -1 once it passes
the file size, slice the new payload and emit it with the new block
number. Sending is modeled as emission of the blockNum and payload pair
named in the sendData call of line 209; the source call would in fact
raise AttributeError inside packDATA (and passes its data and blockNum
arguments swapped), which the codec level theorems record. -/
def nextBlock (st : RRQState) : RRQState × Send :=
  let db := st.dataBlock + 1
  let s2 := st.s + 512
  let e2 := st.e + 512
  let e3 := if e2 > (st.file.length : Int) then (-1 : Int) else e2
  let d := pySlice st.file s2 e3
  ({ st with dataBlock := db, s := s2, e := e3, data := d }, Send.data db d)

/-- What the loop does between returning from recv and blocking on recv
again: the completion check of line 259 (return when the current block is
acked and e is -1), else the guard of line 191 (build and send the next
block when the current one is acked), else block on recv unchanged. -/
def afterRecv (st : RRQState) : StepOut :=
  if st.ackBlock = st.dataBlock then
    if st.e = -1 then ⟨[], Outcome.completed⟩
    else
      let pr := nextBlock st
      ⟨[pr.2], Outcome.waiting pr.1⟩
  else ⟨[], Outcome.waiting st⟩

/-- Handling of one event at the recv of line 228 (lines 222-263). On a
datagram: unpackACK; an ACK for the current block is accepted (line 232)
and the loop proceeds per afterRecv; any other ACK is ignored (lines
238-242) and the loop proceeds per afterRecv with nothing changed; an
IllegalOperationException (any recognized non-ACK opcode) sends one
ERROR datagram with code ILLEGAL_OPERATION = 4 and returns (lines
243-249); any other exception (UnknownOpcodeException) escapes the inner
try, and the outer except clause of line 251 then evaluates
socket.Timeout, an attribute that socket objects do not have, so
AttributeError kills the session. On a socket timeout the same broken
except clause of line 251 raises AttributeError at once: the resend
comment of line 250 notwithstanding, no retransmission can ever happen.
The sender address of the event is never examined, because socket.recv
returns only the payload. -/
def rrqStep (st : RRQState) : Event → StepOut
  | Event.timeout => ⟨[], Outcome.crashed PyErr.attributeError⟩
  | Event.recv _ packet =>
    match unpackACK packet with
    | Except.ok (_, block) =>
      if block = st.dataBlock then afterRecv { st with ackBlock := block }
      else afterRecv st
    | Except.error PyErr.illegalOperation => ⟨[Send.err 4], Outcome.aborted⟩
    | Except.error _ => ⟨[], Outcome.crashed PyErr.attributeError⟩

/-- Entry into the loop (lines 178-197): the initial values of lines
178-186 are such that the first iteration builds and sends block 1 and
then blocks at recv. Modelled from the spec: storage.Storage().get of
lines 166-169 lives in tftp/storage.py, which is absent from the
repository; per the spec it returns the byte sequence of the named file
(or fails, a path the session claims do not take), so the returned bytes
are passed in as the file argument. -/
def rrqInit (file : List Nat) : RRQState × Send :=
  nextBlock { file := file, dataBlock := 0, ackBlock := 0, s := -512, e := 0, data := [] }

/-- Run the loop from a recv-blocked state over a list of events,
collecting every datagram handed to the transport. -/
def rrqRunFrom (st : RRQState) : List Event → List Send × Outcome
  | [] => ([], Outcome.waiting st)
  | ev :: evs =>
    let out := rrqStep st ev
    match out.next with
    | Outcome.waiting st2 =>
      let rest := rrqRunFrom st2 evs
      (out.sends ++ rest.1, rest.2)
    | o => (out.sends, o)

/-- A whole read session on the given file bytes: the initial block send,
then the loop driven by the events. -/
def rrqRun (file : List Nat) (events : List Event) : List Send × Outcome :=
  let ini := rrqInit file
  let rest := rrqRunFrom ini.1 events
  (ini.2 :: rest.1, rest.2)

/-- A session on a 1024 byte file that has just sent block 1 and waits at
recv for Ack(1). -/
def stC3 : RRQState :=
  ⟨List.replicate 1024 65, 1, 0, 0, 512, List.replicate 512 65⟩

/-- A session on a 100 byte file that has just sent its final block
(block 1, e already clipped to -1) and waits at recv for Ack(1). -/
def stC4 : RRQState :=
  ⟨List.replicate 100 65, 1, 0, 0, -1, List.replicate 99 65⟩

/-- A session on a 1024 byte file that has just sent block 1 and waits at
recv for Ack(1). -/
def stC5 : RRQState :=
  ⟨List.replicate 1024 65, 1, 0, 0, 512, List.replicate 512 65⟩

/-- A session on a 1024 byte file that has sent block 2 and waits at recv
for Ack(2), block 1 already acknowledged. -/
def stC9 : RRQState :=
  ⟨List.replicate 1024 65, 2, 1, 512, 1024, List.replicate 512 65⟩

/-- Claim C1: the codec round trip decode(encode(p)) = p cannot hold,
because encoding crashes: packDATA raises AttributeError on every call
(the extebd typo at line 87) and packACK raises NameError on every call
(the undefined name Opcode at line 146). Evaluated here at concrete
inputs: a 2 byte payload with block number 1, and block number 1. -/
theorem packDATA_and_packACK_crash :
    packDATA [104, 105] 1 = Except.error PyErr.attributeError ∧
    packACK 1 = Except.error PyErr.nameError :=
  ⟨rfl, rfl⟩

/-- Claim C2: on a 100 byte file the session emits exactly one Data
block, block 1, and completes after Ack(1) — but the block carries only
99 bytes, because the final block is sliced as file[s:-1], dropping the
last byte of the file; and the payload the source would have to transmit
cannot even be serialized, since packDATA raises AttributeError. -/
theorem read100_truncates_and_send_crashes :
    rrqRun (List.replicate 100 65) [Event.recv 0 [0, 4, 0, 1]]
      = ([Send.data 1 (List.replicate 99 65)], Outcome.completed) ∧
    (List.replicate 99 65).length ≠ 100 ∧
    packDATA (List.replicate 99 65) 1 = Except.error PyErr.attributeError := by
  refine ⟨by decide, by decide, rfl⟩

/-- Claim C3: no bounded retry exists. The source has no retriesRemaining
counter at all, and on the first recv timeout the except clause of line
251 evaluates socket.Timeout, an attribute socket objects do not have, so
the session dies of AttributeError with zero retransmissions and no
Aborted(timeout) transition; nothing is sent. -/
theorem timeout_crashes_no_retransmission :
    rrqStep stC3 Event.timeout = ⟨[], Outcome.crashed PyErr.attributeError⟩ :=
  rfl

/-- Claim C4 counterexample: a datagram carrying Ack(1) from foreign
address 99 (the peer being address 0) is processed exactly as peer
traffic: the session accepts the acknowledgment and completes, so its
state is perturbed, and no UnknownTransferId error (code 5) is sent to
anyone. -/
theorem foreign_ack_advances_session :
    rrqStep stC4 (Event.recv 99 [0, 4, 0, 1]) = ⟨[], Outcome.completed⟩ ∧
    (rrqStep stC4 (Event.recv 99 [0, 4, 0, 1])).next ≠ Outcome.waiting stC4 ∧
    Send.err 5 ∉ (rrqStep stC4 (Event.recv 99 [0, 4, 0, 1])).sends := by
  decide

/-- Helper: whatever afterRecv does, the only datagram it can emit is a
DATA block, never an error. -/
theorem err5_not_in_afterRecv (st : RRQState) : Send.err 5 ∉ (afterRecv st).sends := by
  unfold afterRecv nextBlock
  split
  · split <;> simp
  · simp

/-- Claim C4 amended: the session never observes the sender address
(socket.recv discards it), so every datagram is handled identically no
matter who sent it, and no step ever sends an error with code
UnknownTransferId (5). -/
theorem recv_ignores_sender :
    (∀ (st : RRQState) (a1 a2 : Nat) (p : List Nat),
      rrqStep st (Event.recv a1 p) = rrqStep st (Event.recv a2 p)) ∧
    (∀ (st : RRQState) (ev : Event), Send.err 5 ∉ (rrqStep st ev).sends) := by
  constructor
  · intro st a1 a2 p
    rfl
  · intro st ev
    cases ev with
    | timeout => simp [rrqStep]
    | recv a p =>
      cases h : unpackACK p with
      | error e => cases e <;> simp [rrqStep, h]
      | ok v =>
        obtain ⟨c, b⟩ := v
        simp only [rrqStep, h]
        by_cases hb : b = st.dataBlock
        · simp only [hb, if_pos rfl]
          exact err5_not_in_afterRecv _
        · simp only [if_neg hb]
          exact err5_not_in_afterRecv _

/-- Claim C4 amended, witness at a concrete state and datagram. -/
theorem recv_ignores_sender_witness :
    rrqStep stC4 (Event.recv 1 [0, 4, 0, 1]) = rrqStep stC4 (Event.recv 2 [0, 4, 0, 1]) ∧
    Send.err 5 ∉ (rrqStep stC4 (Event.recv 1 [0, 4, 0, 1])).sends :=
  ⟨recv_ignores_sender.1 stC4 1 2 [0, 4, 0, 1],
   recv_ignores_sender.2 stC4 (Event.recv 1 [0, 4, 0, 1])⟩

/-- Claim C5 counterexample: a mid session datagram that is an Error
packet (opcode 5) does abort the session, but not silently: the session
answers it with one Error datagram of code IllegalOperation (4) before
returning, so something is sent back to the peer. -/
theorem peer_error_answered_not_silent :
    rrqStep stC5 (Event.recv 0 [0, 5, 0, 0, 65, 0]) = ⟨[Send.err 4], Outcome.aborted⟩ ∧
    (rrqStep stC5 (Event.recv 0 [0, 5, 0, 0, 65, 0])).sends ≠ [] := by
  decide

/-- Claim C5 amended: receiving any datagram whose opcode decodes to
ERROR (5) makes the session send one Error packet with code
IllegalOperation (4) to the peer and then abort — the code treats every
recognized non ACK opcode as an illegal operation and never reads the
content of the error packet. -/
theorem peer_error_aborts_after_error_send (st : RRQState) (a : Nat) (p : List Nat)
    (h : unpackOpcode p = Except.ok 5) :
    rrqStep st (Event.recv a p) = ⟨[Send.err 4], Outcome.aborted⟩ := by
  simp [rrqStep, unpackACK, h]

/-- Claim C5 amended, witness at a concrete state and error packet. -/
theorem peer_error_aborts_after_error_send_witness :
    unpackOpcode [0, 5, 0, 0, 65, 0] = Except.ok 5 ∧
    rrqStep stC5 (Event.recv 0 [0, 5, 0, 0, 65, 0]) = ⟨[Send.err 4], Outcome.aborted⟩ :=
  ⟨rfl, peer_error_aborts_after_error_send stC5 0 [0, 5, 0, 0, 65, 0] rfl⟩

set_option maxRecDepth 100000 in
/-- Claim C6: on a 1024 byte file the loop does construct the block
sequence 1 (512 bytes), 2 (512 bytes), 3 (empty), completing exactly
after Ack(3) and not before — but no datagram can actually leave the
server, because serializing any of these blocks raises AttributeError in
packDATA (and the sendData call at line 209 also passes its data and
blockNum arguments swapped). -/
theorem read1024_blocks_and_send_crashes :
    rrqRun (List.replicate 1024 65)
        [Event.recv 0 [0, 4, 0, 1], Event.recv 0 [0, 4, 0, 2], Event.recv 0 [0, 4, 0, 3]]
      = ([Send.data 1 (List.replicate 512 65), Send.data 2 (List.replicate 512 65),
          Send.data 3 []], Outcome.completed) ∧
    (rrqRun (List.replicate 1024 65)
        [Event.recv 0 [0, 4, 0, 1], Event.recv 0 [0, 4, 0, 2]]).2 ≠ Outcome.completed ∧
    packDATA (List.replicate 512 65) 1 = Except.error PyErr.attributeError := by
  refine ⟨by decide, by decide, rfl⟩

/-- Claim C7 counterexample: the 1 byte input 0x04 is not rejected at
all: unpackACK returns the packet (ACK, block 0), and the 1 byte input
0x03 likewise decodes as (DATA, block 0, empty payload) — so a short
input does not fail with MalformedPacket. -/
theorem one_byte_ack_decodes :
    unpackACK [4] = Except.ok (4, 0) ∧ unpackDATA [3] = Except.ok (3, 0, []) :=
  ⟨rfl, rfl⟩

/-- Claim C7 amended: no length check exists; a 1 byte input b reads as
the opcode b itself, accepted when b is in 1..5 and rejected with
UnknownOpcode (not MalformedPacket) otherwise; the ACK and DATA paths
then accept their 1 byte inputs (block number 0, empty payload), and only
the request path fails with MalformedPacket, for the missing filename
terminator. -/
theorem short_input_decode_behavior (b : Nat) (hb : b < 256) :
    (unpackOpcode [b]
      = if b ∈ Opcodes then Except.ok b else Except.error PyErr.unknownOpcode) ∧
    ((b = 1 ∨ b = 2) → unpackRWRQ [b] = Except.error PyErr.malformedPacket) ∧
    unpackACK [4] = Except.ok (4, 0) ∧
    unpackDATA [3] = Except.ok (3, 0, []) := by
  refine ⟨?_, ?_, rfl, rfl⟩
  · simp [unpackOpcode, intFromBytes]
  · rintro (rfl | rfl) <;> rfl

/-- Claim C7 amended, witness at the 1 byte input 0x01. -/
theorem short_input_decode_behavior_witness :
    (1 : Nat) < 256 ∧ unpackRWRQ [1] = Except.error PyErr.malformedPacket ∧
    unpackACK [4] = Except.ok (4, 0) :=
  ⟨by decide, (short_input_decode_behavior 1 (by decide)).2.1 (Or.inl rfl),
   (short_input_decode_behavior 1 (by decide)).2.2.1⟩

/-- Claim C8 counterexample: the request for file a with mode foo fails
decoding with UnknownMode, and the dispatcher answers with error code
AccessViolation (2), not FileNotFound (1). -/
theorem unknown_mode_maps_to_access_violation :
    handle [0, 1, 97, 0, 102, 111, 111, 0] = HandleOut.sentError 2 ∧
    handle [0, 1, 97, 0, 102, 111, 111, 0] ≠ HandleOut.sentError 1 := by
  decide

/-- Claim C8 amended: on a request whose decode fails with UnknownMode
the dispatcher sends one Error datagram with code AccessViolation (2) to
the originating address and creates no session; on EmptyFilename it sends
code FileNotFound (1) and creates no session. -/
theorem dispatcher_decode_failure_mapping (p : List Nat) :
    (unpackRWRQ p = Except.error PyErr.unknownMode → handle p = HandleOut.sentError 2) ∧
    (unpackRWRQ p = Except.error PyErr.emptyPath → handle p = HandleOut.sentError 1) := by
  constructor <;> intro h <;> simp [handle, h]

/-- Claim C8 amended, witness at a mode foo request and an empty filename
request. -/
theorem dispatcher_decode_failure_mapping_witness :
    handle [0, 1, 97, 0, 102, 111, 111, 0] = HandleOut.sentError 2 ∧
    handle [0, 1, 0, 111, 99, 116, 101, 116, 0] = HandleOut.sentError 1 :=
  ⟨(dispatcher_decode_failure_mapping [0, 1, 97, 0, 102, 111, 111, 0]).1 rfl,
   (dispatcher_decode_failure_mapping [0, 1, 0, 111, 99, 116, 101, 116, 0]).2 rfl⟩

/-- Claim C9: a session waiting for the acknowledgment of its current
block (so ackBlock differs from dataBlock) that receives an ACK for any
other block ignores it completely: no state component changes, nothing is
sent, and the session blocks on recv again. -/
theorem stale_ack_ignored (st : RRQState) (a : Nat) (p : List Nat) (b : Nat)
    (h1 : unpackACK p = Except.ok (4, b)) (h2 : b ≠ st.dataBlock)
    (h3 : st.ackBlock ≠ st.dataBlock) :
    rrqStep st (Event.recv a p) = ⟨[], Outcome.waiting st⟩ := by
  simp [rrqStep, h1, h2, afterRecv, h3]

/-- Claim C9, witness: a session awaiting Ack(2) receives Ack(1) and
stays exactly as it was, sending nothing. -/
theorem stale_ack_ignored_witness :
    unpackACK [0, 4, 0, 1] = Except.ok (4, 1) ∧ (1 : Nat) ≠ stC9.dataBlock ∧
    stC9.ackBlock ≠ stC9.dataBlock ∧
    rrqStep stC9 (Event.recv 0 [0, 4, 0, 1]) = ⟨[], Outcome.waiting stC9⟩ :=
  ⟨rfl, by decide, by decide,
   stale_ack_ignored stC9 0 [0, 4, 0, 1] 1 rfl (by decide) (by decide)⟩

/-- Claim C10: on any packet whose first two bytes decode to a recognized
non request opcode (DATA 3, ACK 4 or ERROR 5), unpackRWRQ takes its
rejection branch and raises an exception instead of returning a tuple —
concretely a NameError, since the message of the intended
IllegalOperationException references the undefined name c. -/
theorem unpackRWRQ_rejects_nonrequest_opcodes (p : List Nat) (c : Nat)
    (h : unpackOpcode p = Except.ok c) (hc : c = 3 ∨ c = 4 ∨ c = 5) :
    unpackRWRQ p = Except.error PyErr.nameError := by
  rcases hc with rfl | rfl | rfl <;> simp [unpackRWRQ, h]

/-- Claim C10, witness at the 2 byte DATA header packet. -/
theorem unpackRWRQ_rejects_nonrequest_opcodes_witness :
    unpackOpcode [0, 3] = Except.ok 3 ∧
    ((3 : Nat) = 3 ∨ (3 : Nat) = 4 ∨ (3 : Nat) = 5) ∧
    unpackRWRQ [0, 3] = Except.error PyErr.nameError :=
  ⟨rfl, Or.inl rfl,
   unpackRWRQ_rejects_nonrequest_opcodes [0, 3] 3 rfl (Or.inl rfl)⟩

end Tftp
